import Mathlib

/-!
Shallow embedding of `src/crates/rust-zod-core/src/lib.rs` — a runtime
JSON-schema validation engine.  Rust `f64` payloads are modelled as exact
rationals (`Rat`): every finite `f64` is a rational, and none of the checked
properties depend on rounding.  `serde_json::Value` objects are modelled as
association lists (the iteration order of the map becomes the list order);
`HashMap<String, Schema>` likewise, with insert-overwrite semantics.
Rust `String::len` is the UTF-8 byte count, modelled by `String.utf8ByteSize`.
`validate_recursive` threads the two mutable accumulators (`path`, `errors`)
explicitly and returns `none` exactly where the Rust code would panic
(`as_f64().unwrap()` in the Number branch); its two inner `for` loops over
object entries and array elements are the mutually recursive `objectLoop` and
`arrayLoop`.
-/

/-- A `serde_json` number.  `as_f64` models `Number::as_f64`, which (without
the arbitrary-precision feature) always returns `Some`. -/
structure JNumber where
  val : Rat
deriving DecidableEq

def JNumber.as_f64 (n : JNumber) : Option Rat := some n.val

/-- `serde_json::Value`: the dynamic input tree. -/
inductive Value where
  | str : String → Value
  | number : JNumber → Value
  | bool : Bool → Value
  | object : List (String × Value) → Value
  | array : List Value → Value
  | null : Value

/-- `Schema`: the tagged union of validation rules, with the fields of the
Rust `StringSchema`/`NumberSchema`/`ObjectSchema`/`ArraySchema` structs
inlined into the constructors. -/
inductive Schema where
  | String (min_length : Option Nat) (max_length : Option Nat)
  | Number (min : Option Rat) (max : Option Rat)
  | Boolean
  | Object (properties : List (String × Schema)) (required : List String)
      (additional_properties : Bool)
  | Array (items : Option Schema) (min_items : Option Nat) (max_items : Option Nat)

inductive PathSegment where
  | Key : String → PathSegment
  | Index : Nat → PathSegment
deriving DecidableEq

inductive ErrorCode where
  | InvalidType
  | MinLength
  | MaxLength
  | Min
  | Max
  | Required
  | MinItems
  | MaxItems
  | AdditionalProperty
deriving DecidableEq

structure ValidationError where
  path : List PathSegment
  code : ErrorCode
  message : String
  expected : Option Value
  received : Option Value

def schema_type_name : Schema → String
  | Schema.String _ _ => "string"
  | Schema.Number _ _ => "number"
  | Schema.Boolean => "boolean"
  | Schema.Object _ _ _ => "object"
  | Schema.Array _ _ _ => "array"

def value_type_name : Value → String
  | Value.str _ => "string"
  | Value.number _ => "number"
  | Value.bool _ => "boolean"
  | Value.object _ => "object"
  | Value.array _ => "array"
  | Value.null => "null"

/-- `HashMap::insert`: replaces the value when the key is present. -/
def insertAssoc (m : List (String × Schema)) (k : String) (v : Schema) :
    List (String × Schema) :=
  match m with
  | [] => [(k, v)]
  | (k₁, v₁) :: rest =>
    if k₁ = k then (k, v) :: rest else (k₁, v₁) :: insertAssoc rest k v

/-- `HashMap::get` on the modelled properties map. -/
def lookupAssoc (m : List (String × Schema)) (k : String) : Option Schema :=
  match m with
  | [] => none
  | (k₁, v₁) :: rest => if k₁ = k then some v₁ else lookupAssoc rest k

/-- `Map::contains_key` on a modelled JSON object. -/
def containsKey (obj : List (String × Value)) (k : String) : Bool :=
  match obj with
  | [] => false
  | (k₁, _) :: rest => if k₁ = k then true else containsKey rest k

def min_length_error (min : Nat) (s : String) (path : List PathSegment) :
    ValidationError :=
  { path := path
    code := ErrorCode.MinLength
    message := "String must be at least " ++ toString min ++ " characters"
    expected := some (Value.object [("min", Value.number ⟨(min : Rat)⟩)])
    received := some (Value.str s) }

def max_length_error (max : Nat) (s : String) (path : List PathSegment) :
    ValidationError :=
  { path := path
    code := ErrorCode.MaxLength
    message := "String must be at most " ++ toString max ++ " characters"
    expected := some (Value.object [("max", Value.number ⟨(max : Rat)⟩)])
    received := some (Value.str s) }

def min_error (min : Rat) (num : Rat) (path : List PathSegment) : ValidationError :=
  { path := path
    code := ErrorCode.Min
    message := "Number must be at least " ++ toString min
    expected := some (Value.object [("min", Value.number ⟨min⟩)])
    received := some (Value.number ⟨num⟩) }

def max_error (max : Rat) (num : Rat) (path : List PathSegment) : ValidationError :=
  { path := path
    code := ErrorCode.Max
    message := "Number must be at most " ++ toString max
    expected := some (Value.object [("max", Value.number ⟨max⟩)])
    received := some (Value.number ⟨num⟩) }

def required_error (required_key : String) (path : List PathSegment) :
    ValidationError :=
  { path := path
    code := ErrorCode.Required
    message := "Required property \x27" ++ required_key ++ "\x27 is missing"
    expected := none
    received := none }

def additional_property_error (key : String) (val : Value)
    (path : List PathSegment) : ValidationError :=
  { path := path
    code := ErrorCode.AdditionalProperty
    message := "Additional property \x27" ++ key ++ "\x27 is not allowed"
    expected := none
    received := some val }

def min_items_error (min : Nat) (len : Nat) (path : List PathSegment) :
    ValidationError :=
  { path := path
    code := ErrorCode.MinItems
    message := "Array must have at least " ++ toString min ++ " items"
    expected := some (Value.object [("minItems", Value.number ⟨(min : Rat)⟩)])
    received := some (Value.number ⟨(len : Rat)⟩) }

def max_items_error (max : Nat) (len : Nat) (path : List PathSegment) :
    ValidationError :=
  { path := path
    code := ErrorCode.MaxItems
    message := "Array must have at most " ++ toString max ++ " items"
    expected := some (Value.object [("maxItems", Value.number ⟨(max : Rat)⟩)])
    received := some (Value.number ⟨(len : Rat)⟩) }

def invalid_type_error (schema : Schema) (value : Value)
    (path : List PathSegment) : ValidationError :=
  { path := path
    code := ErrorCode.InvalidType
    message := "Expected \"" ++ schema_type_name schema ++ "\", received \"" ++
      value_type_name value ++ "\""
    expected := none
    received := some value }

/-- The `if let Some(min) = string_schema.min_length` block of the String
branch. -/
def min_length_check (min_length : Option Nat) (s : String)
    (path : List PathSegment) (errors : List ValidationError) :
    List ValidationError :=
  match min_length with
  | some min => if s.utf8ByteSize < min then errors ++ [min_length_error min s path] else errors
  | none => errors

/-- The `if let Some(max) = string_schema.max_length` block of the String
branch. -/
def max_length_check (max_length : Option Nat) (s : String)
    (path : List PathSegment) (errors : List ValidationError) :
    List ValidationError :=
  match max_length with
  | some max => if s.utf8ByteSize > max then errors ++ [max_length_error max s path] else errors
  | none => errors

/-- The `if let Some(min) = number_schema.min` block of the Number branch. -/
def min_check (min : Option Rat) (num : Rat) (path : List PathSegment)
    (errors : List ValidationError) : List ValidationError :=
  match min with
  | some m => if num < m then errors ++ [min_error m num path] else errors
  | none => errors

/-- The `if let Some(max) = number_schema.max` block of the Number branch. -/
def max_check (max : Option Rat) (num : Rat) (path : List PathSegment)
    (errors : List ValidationError) : List ValidationError :=
  match max with
  | some m => if num > m then errors ++ [max_error m num path] else errors
  | none => errors

/-- The `if let Some(min) = array_schema.min_items` block of the Array
branch. -/
def min_items_check (min_items : Option Nat) (len : Nat)
    (path : List PathSegment) (errors : List ValidationError) :
    List ValidationError :=
  match min_items with
  | some min => if len < min then errors ++ [min_items_error min len path] else errors
  | none => errors

/-- The `if let Some(max) = array_schema.max_items` block of the Array
branch. -/
def max_items_check (max_items : Option Nat) (len : Nat)
    (path : List PathSegment) (errors : List ValidationError) :
    List ValidationError :=
  match max_items with
  | some max => if len > max then errors ++ [max_items_error max len path] else errors
  | none => errors

/-- The required-properties loop of the `Object` branch: for every name in
`required` missing from the object, push `Key name`, append a `Required`
error, pop. -/
def requiredLoop (required : List String) (obj : List (String × Value))
    (path : List PathSegment) (errors : List ValidationError) :
    List PathSegment × List ValidationError :=
  match required with
  | [] => (path, errors)
  | required_key :: rest =>
    if containsKey obj required_key then requiredLoop rest obj path errors
    else
      let path₁ := path ++ [PathSegment.Key required_key]
      let errors₁ := errors ++ [required_error required_key path₁]
      requiredLoop rest obj path₁.dropLast errors₁

mutual

/-- `validate_recursive`: the recursive co-traversal, threading the `path`
and `errors` accumulators.  Returns `none` exactly where the Rust code
panics (the `as_f64().unwrap()`). -/
def validate_recursive (schema : Schema) (value : Value)
    (path : List PathSegment) (errors : List ValidationError) :
    Option (List PathSegment × List ValidationError) :=
  match schema, value with
  | Schema.String min_length max_length, Value.str s =>
    some (path, max_length_check max_length s path (min_length_check min_length s path errors))
  | Schema.Number min max, Value.number n =>
    match n.as_f64 with
    | none => none
    | some num =>
      some (path, max_check max num path (min_check min num path errors))
  | Schema.Boolean, Value.bool _ => some (path, errors)
  | Schema.Object properties required additional_properties, Value.object obj =>
    objectLoop properties additional_properties obj
      (requiredLoop required obj path errors).1
      (requiredLoop required obj path errors).2
  | Schema.Array items min_items max_items, Value.array arr =>
    match items with
    | some item_schema =>
      arrayLoop item_schema arr 0 path
        (max_items_check max_items arr.length path
          (min_items_check min_items arr.length path errors))
    | none =>
      some (path, max_items_check max_items arr.length path
        (min_items_check min_items arr.length path errors))
  | schema, value => some (path, errors ++ [invalid_type_error schema value path])

/-- The per-present-key loop of the `Object` branch: push `Key key`, recurse
into the declared property schema (or flag / accept an additional property),
pop. -/
def objectLoop (properties : List (String × Schema)) (additional_properties : Bool)
    (obj : List (String × Value)) (path : List PathSegment)
    (errors : List ValidationError) :
    Option (List PathSegment × List ValidationError) :=
  match obj with
  | [] => some (path, errors)
  | (key, val) :: rest =>
    match lookupAssoc properties key with
    | some prop_schema =>
      match validate_recursive prop_schema val (path ++ [PathSegment.Key key]) errors with
      | none => none
      | some pe => objectLoop properties additional_properties rest pe.1.dropLast pe.2
    | none =>
      objectLoop properties additional_properties rest
        (path ++ [PathSegment.Key key]).dropLast
        (if additional_properties then errors
         else errors ++ [additional_property_error key val (path ++ [PathSegment.Key key])])

/-- The per-element loop of the `Array` branch: push `Index i`, recurse into
the items schema, pop. -/
def arrayLoop (item_schema : Schema) (arr : List Value) (i : Nat)
    (path : List PathSegment) (errors : List ValidationError) :
    Option (List PathSegment × List ValidationError) :=
  match arr with
  | [] => some (path, errors)
  | item :: rest =>
    match validate_recursive item_schema item (path ++ [PathSegment.Index i]) errors with
    | none => none
    | some pe => arrayLoop item_schema rest (i + 1) pe.1.dropLast pe.2

end

/-- `validate`: the exposed entry point.  `none` models a panic (never
reached, see the totality theorems). -/
def validate (schema : Schema) (value : Value) :
    Option (Except (List ValidationError) Unit) :=
  match validate_recursive schema value [] [] with
  | none => none
  | some pe => if pe.2.isEmpty then some (Except.ok ()) else some (Except.error pe.2)

/-- `E` extends `e`: the error accumulator only ever grows by appending. -/
def ErrExt (e E : List ValidationError) : Prop := ∃ d, E = e ++ d

theorem ErrExt_refl (e : List ValidationError) : ErrExt e e := ⟨[], by simp⟩

theorem ErrExt_push (e E l : List ValidationError) (h : ErrExt e E) :
    ErrExt e (E ++ l) := by
  obtain ⟨d, rfl⟩ := h
  exact ⟨d ++ l, by simp⟩

theorem ErrExt_trans (e E F : List ValidationError) (h₁ : ErrExt e E)
    (h₂ : ErrExt E F) : ErrExt e F := by
  obtain ⟨d, rfl⟩ := h₁
  obtain ⟨d₂, rfl⟩ := h₂
  exact ⟨d ++ d₂, by simp⟩

theorem min_length_check_ext (ml : Option Nat) (s : String) (p : List PathSegment)
    (e : List ValidationError) : ErrExt e (min_length_check ml s p e) := by
  cases ml <;> simp only [min_length_check] <;> try split_ifs
  all_goals first | exact ErrExt_refl e | exact ErrExt_push _ _ _ (ErrExt_refl e)

theorem max_length_check_ext (mx : Option Nat) (s : String) (p : List PathSegment)
    (e : List ValidationError) : ErrExt e (max_length_check mx s p e) := by
  cases mx <;> simp only [max_length_check] <;> try split_ifs
  all_goals first | exact ErrExt_refl e | exact ErrExt_push _ _ _ (ErrExt_refl e)

theorem min_check_ext (mn : Option Rat) (num : Rat) (p : List PathSegment)
    (e : List ValidationError) : ErrExt e (min_check mn num p e) := by
  cases mn <;> simp only [min_check] <;> try split_ifs
  all_goals first | exact ErrExt_refl e | exact ErrExt_push _ _ _ (ErrExt_refl e)

theorem max_check_ext (mx : Option Rat) (num : Rat) (p : List PathSegment)
    (e : List ValidationError) : ErrExt e (max_check mx num p e) := by
  cases mx <;> simp only [max_check] <;> try split_ifs
  all_goals first | exact ErrExt_refl e | exact ErrExt_push _ _ _ (ErrExt_refl e)

theorem min_items_check_ext (mi : Option Nat) (len : Nat) (p : List PathSegment)
    (e : List ValidationError) : ErrExt e (min_items_check mi len p e) := by
  cases mi <;> simp only [min_items_check] <;> try split_ifs
  all_goals first | exact ErrExt_refl e | exact ErrExt_push _ _ _ (ErrExt_refl e)

theorem max_items_check_ext (mx : Option Nat) (len : Nat) (p : List PathSegment)
    (e : List ValidationError) : ErrExt e (max_items_check mx len p e) := by
  cases mx <;> simp only [max_items_check] <;> try split_ifs
  all_goals first | exact ErrExt_refl e | exact ErrExt_push _ _ _ (ErrExt_refl e)

theorem requiredLoop_run (required : List String) (obj : List (String × Value)) :
    ∀ path errors, (requiredLoop required obj path errors).1 = path ∧
      ErrExt errors (requiredLoop required obj path errors).2 := by
  induction required with
  | nil => intro path errors; exact ⟨rfl, ErrExt_refl errors⟩
  | cons k rest ih =>
    intro path errors
    by_cases h : containsKey obj k = true
    · simpa [requiredLoop, h] using ih path errors
    · have hr := ih path (errors ++ [required_error k (path ++ [PathSegment.Key k])])
      refine ⟨?_, ?_⟩
      · simpa [requiredLoop, h] using hr.1
      · simp only [requiredLoop, h, if_false, List.dropLast_concat]
        exact ErrExt_trans _ _ _ (ErrExt_push _ _ _ (ErrExt_refl errors)) hr.2

/-- Joint specification of one recursive step: the call returns `some` (no
panic), restores the path accumulator, and only appends to the error
accumulator. -/
def RunSpec (r : Option (List PathSegment × List ValidationError))
    (p : List PathSegment) (e : List ValidationError) : Prop :=
  ∃ pe, r = some pe ∧ pe.1 = p ∧ ErrExt e pe.2

theorem RunSpec_some (p : List PathSegment) (e E : List ValidationError)
    (h : ErrExt e E) : RunSpec (some (p, E)) p e := ⟨(p, E), rfl, rfl, h⟩

theorem validate_recursive_run :
    ∀ s v p e, RunSpec (validate_recursive s v p e) p e := by
  refine validate_recursive.induct
    (fun s v p e => RunSpec (validate_recursive s v p e) p e)
    (fun isch arr i p e => RunSpec (arrayLoop isch arr i p e) p e)
    (fun props ap obj p e => RunSpec (objectLoop props ap obj p e) p e)
    ?_ ?_ ?_ ?_ ?_ ?_ ?_ ?_ ?_ ?_ ?_ ?_ ?_ ?_ ?_
  · -- String vs str
    intro p e ml mx s
    simp only [validate_recursive]
    exact RunSpec_some p e _ (ErrExt_trans _ _ _ (min_length_check_ext ml s p e)
      (max_length_check_ext mx s p _))
  · -- Number, as_f64 = none: impossible
    intro p e mn mx n h
    simp [JNumber.as_f64] at h
  · -- Number, as_f64 = some num
    intro p e mn mx n num h
    simp only [JNumber.as_f64, Option.some.injEq] at h
    subst h
    simp only [validate_recursive, JNumber.as_f64]
    exact RunSpec_some p e _ (ErrExt_trans _ _ _ (min_check_ext mn n.val p e)
      (max_check_ext mx n.val p _))
  · -- Boolean vs bool
    intro p e b
    simp only [validate_recursive]
    exact RunSpec_some p e e (ErrExt_refl e)
  · -- Object vs object
    intro p e props req ap obj IH
    have hreq := requiredLoop_run req obj p e
    obtain ⟨pe₂, hEq, h1, h2⟩ := IH
    refine ⟨pe₂, ?_, ?_, ?_⟩
    · simp only [validate_recursive]
      exact hEq
    · rw [h1]
      exact hreq.1
    · exact ErrExt_trans _ _ _ hreq.2 h2
  · -- Array with items
    intro p e mi ma arr isch IH
    obtain ⟨pe, hEq, h1, h2⟩ := IH
    refine ⟨pe, ?_, h1, ?_⟩
    · simp only [validate_recursive]
      exact hEq
    · refine ErrExt_trans _ _ _ ?_ h2
      exact ErrExt_trans _ _ _ (min_items_check_ext mi arr.length p e)
        (max_items_check_ext ma arr.length p _)
  · -- Array without items
    intro p e mi ma arr
    simp only [validate_recursive]
    exact RunSpec_some p e _ (ErrExt_trans _ _ _ (min_items_check_ext mi arr.length p e)
      (max_items_check_ext ma arr.length p _))
  · -- type mismatch
    intro p e s v h₁ h₂ h₃ h₄ h₅
    cases s <;> cases v <;>
      first
        | exact (h₁ _ _ _ rfl rfl).elim
        | exact (h₂ _ _ _ rfl rfl).elim
        | exact (h₃ _ rfl rfl).elim
        | exact (h₄ _ _ _ _ rfl rfl).elim
        | exact (h₅ _ _ _ _ rfl rfl).elim
        | (simp only [validate_recursive]
           exact RunSpec_some p e _ (ErrExt_push _ _ _ (ErrExt_refl e)))
  · -- objectLoop nil
    intro props ap p e
    simp only [objectLoop]
    exact RunSpec_some p e e (ErrExt_refl e)
  · -- objectLoop cons, declared property, inner call panics: impossible
    intro props ap p e k v rest isch hlook hnone IH
    obtain ⟨pe, hEq, _, _⟩ := IH
    rw [hnone] at hEq
    cases hEq
  · -- objectLoop cons, declared property, inner call returns
    intro props ap p e k v rest isch hlook pe hsome IH₁ IH₂
    obtain ⟨pe₀, hEq₀, h1₀, h2₀⟩ := IH₁
    rw [hsome, Option.some.injEq] at hEq₀
    subst hEq₀
    obtain ⟨pe₂, hEq₂, h1₂, h2₂⟩ := IH₂
    refine ⟨pe₂, ?_, ?_, ?_⟩
    · simp only [objectLoop, hlook, hsome]
      exact hEq₂
    · rw [h1₂, h1₀]
      simp
    · exact ErrExt_trans _ _ _ h2₀ h2₂
  · -- objectLoop cons, no declared property
    intro props ap p e k v rest hlook IH
    obtain ⟨pe₂, hEq₂, h1₂, h2₂⟩ := IH
    refine ⟨pe₂, ?_, ?_, ?_⟩
    · simp only [objectLoop, hlook]
      exact hEq₂
    · rw [h1₂]
      simp
    · refine ErrExt_trans _ _ _ ?_ h2₂
      by_cases h : ap = true
      · simp only [if_pos h]
        exact ErrExt_refl e
      · simp only [if_neg h]
        exact ErrExt_push _ _ _ (ErrExt_refl e)
  · -- arrayLoop nil
    intro isch i p e
    simp only [arrayLoop]
    exact RunSpec_some p e e (ErrExt_refl e)
  · -- arrayLoop cons, inner call panics: impossible
    intro isch i p e item rest hnone IH
    obtain ⟨pe, hEq, _, _⟩ := IH
    rw [hnone] at hEq
    cases hEq
  · -- arrayLoop cons, inner call returns
    intro isch i p e item rest pe hsome IH₁ IH₂
    obtain ⟨pe₀, hEq₀, h1₀, h2₀⟩ := IH₁
    rw [hsome, Option.some.injEq] at hEq₀
    subst hEq₀
    obtain ⟨pe₂, hEq₂, h1₂, h2₂⟩ := IH₂
    refine ⟨pe₂, ?_, ?_, ?_⟩
    · simp only [arrayLoop, hsome]
      exact hEq₂
    · rw [h1₂, h1₀]
      simp
    · exact ErrExt_trans _ _ _ h2₀ h2₂

/-- The fluent builder for `Schema::String`.  The Rust setter methods
`min_length`/`max_length` collide with the Lean field projections, so they
are embedded as `set_min_length`/`set_max_length`. -/
structure StringBuilder where
  min_length : Option Nat
  max_length : Option Nat

def Schema.string : StringBuilder := { min_length := none, max_length := none }

def StringBuilder.set_min_length (b : StringBuilder) (min : Nat) : StringBuilder :=
  { b with min_length := some min }

def StringBuilder.set_max_length (b : StringBuilder) (max : Nat) : StringBuilder :=
  { b with max_length := some max }

def StringBuilder.build (b : StringBuilder) : Schema :=
  Schema.String b.min_length b.max_length

/-- The fluent builder for `Schema::Number`; setters renamed as above. -/
structure NumberBuilder where
  min : Option Rat
  max : Option Rat

def Schema.number : NumberBuilder := { min := none, max := none }

def NumberBuilder.set_min (b : NumberBuilder) (min : Rat) : NumberBuilder :=
  { b with min := some min }

def NumberBuilder.set_max (b : NumberBuilder) (max : Rat) : NumberBuilder :=
  { b with max := some max }

def NumberBuilder.build (b : NumberBuilder) : Schema := Schema.Number b.min b.max

/-- The fluent builder for `Schema::Object`.  `required(name)` pushes onto a
`Vec` and is embedded as `add_required` (the Rust name collides with the
field projection). -/
structure ObjectBuilder where
  properties : List (String × Schema)
  required : List String
  additional_properties : Bool

def Schema.object : ObjectBuilder :=
  { properties := [], required := [], additional_properties := true }

def ObjectBuilder.property (b : ObjectBuilder) (name : String) (schema : Schema) :
    ObjectBuilder :=
  { b with properties := insertAssoc b.properties name schema }

def ObjectBuilder.add_required (b : ObjectBuilder) (name : String) : ObjectBuilder :=
  { b with required := b.required ++ [name] }

def ObjectBuilder.strict (b : ObjectBuilder) : ObjectBuilder :=
  { b with additional_properties := false }

def ObjectBuilder.build (b : ObjectBuilder) : Schema :=
  Schema.Object b.properties b.required b.additional_properties

/-- The fluent builder for `Schema::Array`; setters renamed as above. -/
structure ArrayBuilder where
  items : Option Schema
  min_items : Option Nat
  max_items : Option Nat

def Schema.array : ArrayBuilder :=
  { items := none, min_items := none, max_items := none }

def ArrayBuilder.set_items (b : ArrayBuilder) (schema : Schema) : ArrayBuilder :=
  { b with items := some schema }

def ArrayBuilder.set_min_items (b : ArrayBuilder) (min : Nat) : ArrayBuilder :=
  { b with min_items := some min }

def ArrayBuilder.set_max_items (b : ArrayBuilder) (max : Nat) : ArrayBuilder :=
  { b with max_items := some max }

def ArrayBuilder.build (b : ArrayBuilder) : Schema :=
  Schema.Array b.items b.min_items b.max_items

/-- Whether the schema kind and the dynamic value kind pair up with one of
the five matched arms of `validate_recursive`; every other combination falls
through to the `InvalidType` arm. -/
def kinds_match (s : Schema) (v : Value) : Bool :=
  match s, v with
  | Schema.String _ _, Value.str _ => true
  | Schema.Number _ _, Value.number _ => true
  | Schema.Boolean, Value.bool _ => true
  | Schema.Object _ _ _, Value.object _ => true
  | Schema.Array _ _ _, Value.array _ => true
  | _, _ => false

/-- C1: for every Schema and every DynamicValue, `validate` returns `Ok` iff
the accumulated error list is empty, and otherwise returns the error list,
which is non-empty; there is no outcome that is both or neither. -/
theorem validate_ok_iff_errors_empty (s : Schema) (v : Value) :
    ∃ errs, validate_recursive s v [] [] = some ([], errs) ∧
      (validate s v = some (Except.ok ()) ↔ errs = []) ∧
      (errs ≠ [] → validate s v = some (Except.error errs)) := by
  obtain ⟨⟨p₁, errs⟩, hEq, h1, h2⟩ := validate_recursive_run s v [] []
  have h1' : p₁ = [] := h1
  subst h1'
  refine ⟨errs, hEq, ?_, ?_⟩
  · by_cases he : errs = []
    · simp [validate, hEq, he]
    · simp [validate, hEq, he]
  · intro he
    simp [validate, hEq, he]

/-- C7: validation never panics: `as_f64` always succeeds, and both
`validate_recursive` and `validate` always return a result. -/
theorem validate_never_panics :
    (∀ n : JNumber, (JNumber.as_f64 n).isSome = true) ∧
    (∀ (s : Schema) (v : Value) (p : List PathSegment) (e : List ValidationError),
      (validate_recursive s v p e).isSome = true) ∧
    (∀ (s : Schema) (v : Value), (validate s v).isSome = true) := by
  refine ⟨fun n => rfl, fun s v p e => ?_, fun s v => ?_⟩
  · obtain ⟨pe, hEq, -, -⟩ := validate_recursive_run s v p e
    simp [hEq]
  · obtain ⟨pe, hEq, -, -⟩ := validate_recursive_run s v [] []
    simp only [validate, hEq]
    split <;> rfl

/-- C8: for all Schema and DynamicValue, `validate` terminates and returns
either success or a non-empty error list. -/
theorem validate_terminates (s : Schema) (v : Value) :
    ∃ r, validate s v = some r ∧
      (r = Except.ok () ∨ ∃ errs, errs ≠ [] ∧ r = Except.error errs) := by
  obtain ⟨pe, hEq, h1, h2⟩ := validate_recursive_run s v [] []
  by_cases he : pe.2 = []
  · exact ⟨Except.ok (), by simp [validate, hEq, he], Or.inl rfl⟩
  · exact ⟨Except.error pe.2, by simp [validate, hEq, he], Or.inr ⟨pe.2, he, rfl⟩⟩

/-- C9: every call to `validate_recursive` restores the path accumulator to
its entry value and only appends to the error accumulator. -/
theorem validate_recursive_restores_path (s : Schema) (v : Value)
    (path : List PathSegment) (errors : List ValidationError) :
    ∃ pe, validate_recursive s v path errors = some pe ∧ pe.1 = path ∧
      ∃ d, pe.2 = errors ++ d := by
  obtain ⟨pe, hEq, h1, h2⟩ := validate_recursive_run s v path errors
  exact ⟨pe, hEq, h1, h2⟩

/-- C2: whenever the schema kind and the value kind do not pair up,
`validate_recursive` appends exactly one `InvalidType` error at the current
path (carrying the expected/received type names) and does not recurse. -/
theorem mismatch_single_invalid_type (s : Schema) (v : Value)
    (p : List PathSegment) (e : List ValidationError)
    (h : kinds_match s v = false) :
    validate_recursive s v p e = some (p, e ++ [invalid_type_error s v p]) := by
  cases s <;> cases v <;> simp_all [kinds_match, validate_recursive]

/-- C2 witness: a wrong-typed, deeply nested object yields exactly one
`InvalidType` error. -/
theorem mismatch_single_invalid_type_witness :
    kinds_match (Schema.Number none none)
        (Value.object [("a", Value.object [("b", Value.str "c")])]) = false ∧
    validate_recursive (Schema.Number none none)
        (Value.object [("a", Value.object [("b", Value.str "c")])]) [] [] =
      some ([], [invalid_type_error (Schema.Number none none)
        (Value.object [("a", Value.object [("b", Value.str "c")])]) []]) :=
  ⟨rfl, mismatch_single_invalid_type _ _ _ _ rfl⟩

/-- C3: an Object schema requiring `name` and `age` validated against the
empty object yields exactly two `Required` errors, one per missing field,
in declaration order — for either declaration order. -/
theorem two_required_errors_on_empty_object :
    validate (((Schema.object).add_required "name").add_required "age").build
        (Value.object []) =
      some (Except.error [required_error "name" [PathSegment.Key "name"],
        required_error "age" [PathSegment.Key "age"]]) ∧
    validate (((Schema.object).add_required "age").add_required "name").build
        (Value.object []) =
      some (Except.error [required_error "age" [PathSegment.Key "age"],
        required_error "name" [PathSegment.Key "name"]]) := by
  constructor <;>
    simp [validate, validate_recursive, requiredLoop, containsKey, objectLoop,
      Schema.object, ObjectBuilder.add_required, ObjectBuilder.build]

/-- C4: Array of Object{required: [email]} against
`[{email: ok@x.com}, {}]` yields exactly one `Required` error with the
two-segment path `[Index 1, Key email]`. -/
theorem required_error_path_in_array :
    validate ((Schema.array).set_items (((Schema.object).add_required "email").build)).build
        (Value.array [Value.object [("email", Value.str "ok@x.com")], Value.object []]) =
      some (Except.error
        [required_error "email" [PathSegment.Index 1, PathSegment.Key "email"]]) := by
  simp [validate, validate_recursive, requiredLoop, containsKey, objectLoop, arrayLoop,
    lookupAssoc, min_items_check, max_items_check,
    Schema.object, ObjectBuilder.add_required, ObjectBuilder.build,
    Schema.array, ArrayBuilder.set_items, ArrayBuilder.build]

/-- C5: a strict Object schema with no declared properties flags `x` as an
`AdditionalProperty` error at `[Key x]`; the same schema without `strict`
accepts the object. -/
theorem strict_flags_additional_property :
    validate (Schema.object).strict.build (Value.object [("x", Value.number ⟨1⟩)]) =
      some (Except.error
        [additional_property_error "x" (Value.number ⟨1⟩) [PathSegment.Key "x"]]) ∧
    validate (Schema.object).build (Value.object [("x", Value.number ⟨1⟩)]) =
      some (Except.ok ()) := by
  constructor <;>
    simp [validate, validate_recursive, requiredLoop, objectLoop, lookupAssoc,
      Schema.object, ObjectBuilder.strict, ObjectBuilder.build]

/-- C6: for a String schema against a String value the min-length and
max-length checks run unconditionally and independently, each violated
bound appending exactly one error; with min greater than max both can fire
in the same validation. -/
theorem string_length_checks_independent :
    (∀ (ml mx : Option Nat) (s : String) (p : List PathSegment)
      (e : List ValidationError),
      validate_recursive (Schema.String ml mx) (Value.str s) p e =
        some (p, e ++
          (match ml with
           | some min => if s.utf8ByteSize < min then [min_length_error min s p] else []
           | none => []) ++
          (match mx with
           | some max => if s.utf8ByteSize > max then [max_length_error max s p] else []
           | none => []))) ∧
    validate (Schema.String (some 5) (some 2)) (Value.str "abc") =
      some (Except.error [min_length_error 5 "abc" [], max_length_error 2 "abc" []]) := by
  constructor
  · intro ml mx s p e
    cases ml <;> cases mx <;>
      simp [validate_recursive, min_length_check, max_length_check] <;>
      split_ifs <;> simp
  · simp [validate, validate_recursive, min_length_check, max_length_check,
      show "abc".utf8ByteSize = 3 from rfl]

/-- C10: the required list is an ordered list, not a set: declaring the same
name twice yields two `Required` errors for that name, and the errors appear
in declaration order. -/
theorem required_list_ordered_with_duplicates :
    validate (((Schema.object).add_required "a").add_required "a").build
        (Value.object []) =
      some (Except.error [required_error "a" [PathSegment.Key "a"],
        required_error "a" [PathSegment.Key "a"]]) ∧
    validate (((Schema.object).add_required "b").add_required "a").build
        (Value.object []) =
      some (Except.error [required_error "b" [PathSegment.Key "b"],
        required_error "a" [PathSegment.Key "a"]]) := by
  constructor <;>
    simp [validate, validate_recursive, requiredLoop, containsKey, objectLoop,
      Schema.object, ObjectBuilder.add_required, ObjectBuilder.build]
